import Mathlib

/-!
Shallow embedding of the routing / risk-gating / consensus-validation /
approval-lifecycle core of the repository, together with theorems checking
the specification's claims against it.

Conventions:
* Scores, confidences and weights are rationals (`ℚ`); the Python floats in
  play are exact decimal constants, so rational arithmetic is faithful.
* Timestamps are integers (seconds); `datetime.utcnow()` becomes a `now`
  parameter.
* Python substring tests (`x in s`) are embedded as `List.IsInfix` on the
  character lists; `str.startswith` as `List.IsPrefix`.
* Fallible external calls (LLM generation, the database session) are
  explicit parameters or `Option`/`Except` values.
-/

/-- Embedding of Python's `str.lower()` (character-wise lowercasing; the
inputs in play are ASCII, where the two agree). -/
def pyLower (s : String) : String :=
  String.mk (s.toList.map Char.toLower)

/-- Boolean embedding of Python's substring test `pat in s`. -/
def strContainsB (s pat : String) : Bool :=
  decide (pat.toList <:+: s.toList)

/-- Boolean embedding of Python's `s.startswith(pre)`. -/
def strStartsB (s pre : String) : Bool :=
  decide (pre.toList <+: s.toList)

/-! ## Risk & Recommendation Engine (`agents/judy.py`) -/

/-- Embedding of `JudyAgent._make_recommendation` (judy.py 360-383).
The Python reads `hallucination_risk` out of the validation-result dict;
here it is passed directly.  The `except` branch is unreachable for the
pure comparisons involved, so it is not modelled. -/
def makeRecommendation (confidenceScore : ℚ) (riskLevel : String)
    (hallucinationRisk : String) : String :=
  if confidenceScore ≥ 0.8 ∧ riskLevel = "low" then "approve"
  else if confidenceScore < 0.4 ∨ hallucinationRisk = "high" then "reject"
  else if riskLevel ∈ ["high", "critical"] then "review"
  else "review"

/-- Embedding of `JudyAgent._assess_response_risk` (judy.py 338-358),
the free-text risk scan.  Keyword tests are substring tests on the
lowercased response, exactly as in the source. -/
def assessResponseRisk (response : String) (agentId : String) : String :=
  if ["delete", "format", "remove", "destroy", "irreversible", "permanent"].any
      (fun term => strContainsB (pyLower response) term) then "high"
  else if ["modify", "change", "alter", "update", "install"].any
      (fun term => strContainsB (pyLower response) term) then "medium"
  else if agentId ∈ ["alex"] then "medium"
  else "low"

/-- The `except` branch of `_assess_response_risk` (judy.py 356-358):
on any internal error the function returns `"medium"`. -/
def assessResponseRiskOnError : String := "medium"

/-- Embedding of `JudyAgent._calculate_confidence_score` (judy.py 317-336).
Each consensus source is represented by its a-priori weight
(`source.get("confidence", 0.5)` in the source); the blend and the final
clamp follow the Python line by line. -/
def calculateConfidenceScore (validationScore : ℚ) (sourceWeights : List ℚ) : ℚ :=
  let consensusStrength : ℚ := (sourceWeights.length : ℚ) / 3
  let sourceReliability : ℚ :=
    sourceWeights.sum / (max (sourceWeights.length : ℚ) 1)
  let confidence :=
    validationScore * 0.5 + consensusStrength * 0.3 + sourceReliability * 0.2
  min (max confidence 0) 1

/-- Embedding of `JudyAgent._assess_hallucination_risk` (judy.py 433-440). -/
def assessHallucinationRisk (validationScore : ℚ) : String :=
  if validationScore ≥ 0.8 then "low"
  else if validationScore ≥ 0.5 then "medium"
  else "high"

/-- Embedding of the numeric normalisation in
`JudyAgent._extract_validation_score` (judy.py 392-415).  The regex search
over the lowercased analysis text is abstracted to its outcome: `none` when
no `score`/`confidence` pattern matches, `some q` when the first match
captures the (unsigned, hence non-negative) decimal literal `q`. -/
def extractValidationScore (scoreMatch : Option ℚ) : ℚ :=
  match scoreMatch with
  | none => 0.6
  | some score => if score ≤ 1 then min (max score 0) 1 else score / 10

/-! ### C1: the recommendation decision table -/

/-- **C1.** `makeRecommendation` returns `"approve"` iff confidence ≥ 0.8 and
risk is `"low"`; returns `"reject"` iff (not approved by the first rule and)
confidence < 0.4 or hallucination risk is `"high"`; returns `"review"` in all
remaining cases, in particular whenever the risk tier is high or critical;
and the four concrete rows of the spec's table evaluate as stated. -/
theorem C1_recommendation_table :
    (∀ (c : ℚ) (risk halluc : String),
      (makeRecommendation c risk halluc = "approve" ↔ 0.8 ≤ c ∧ risk = "low"))
    ∧ (∀ (c : ℚ) (risk halluc : String),
      (makeRecommendation c risk halluc = "reject" ↔
        ¬(0.8 ≤ c ∧ risk = "low") ∧ (c < 0.4 ∨ halluc = "high")))
    ∧ (∀ (c : ℚ) (risk halluc : String),
      ¬(0.8 ≤ c ∧ risk = "low") → ¬(c < 0.4 ∨ halluc = "high") →
        makeRecommendation c risk halluc = "review")
    ∧ (∀ halluc : String, makeRecommendation 0.9 "low" halluc = "approve")
    ∧ (∀ halluc : String, makeRecommendation 0.3 "low" halluc = "reject")
    ∧ (∀ halluc : String, halluc ≠ "high" →
        makeRecommendation 0.6 "high" halluc = "review")
    ∧ makeRecommendation 0.95 "critical" "low" = "review" := by
  refine ⟨?_, ?_, ?_, ?_, ?_, ?_, ?_⟩
  · intro c risk halluc
    unfold makeRecommendation
    split_ifs with h1 h2 h3 <;> simp_all
  · intro c risk halluc
    unfold makeRecommendation
    split_ifs with h1 h2 h3 <;> simp_all
  · intro c risk halluc h1 h2
    unfold makeRecommendation
    split_ifs <;> simp_all
  · intro halluc
    unfold makeRecommendation
    split_ifs with h1 h2 <;> simp_all <;> norm_num at *
  · intro halluc
    unfold makeRecommendation
    split_ifs with h1 h2 <;> simp_all <;> norm_num at *
  · intro halluc hne
    unfold makeRecommendation
    split_ifs with h1 h2 h3 <;> simp_all <;> norm_num at *
  · norm_num [makeRecommendation]
    decide

/-- Witness for C1 at concrete inputs. -/
theorem C1_recommendation_table_witness :
    makeRecommendation 0.5 "medium" "medium" = "review" ∧
    makeRecommendation 0.6 "high" "medium" = "review" := by
  constructor
  · exact C1_recommendation_table.2.2.1 0.5 "medium" "medium"
      (by norm_num) (by norm_num; decide)
  · exact C1_recommendation_table.2.2.2.2.2.1 "medium" (by decide)

/-! ### C10: free-text risk assessment never returns "critical" -/

/-- **C10.** `assessResponseRisk` always returns a tier in
{"low", "medium", "high"} and never `"critical"` (so the recommendation
rule forcing review for a critical tier can never fire on this engine's
own output), and the `except` fallback of the source returns `"medium"`. -/
theorem C10_response_risk_range :
    (∀ response agentId : String,
      assessResponseRisk response agentId = "low" ∨
      assessResponseRisk response agentId = "medium" ∨
      assessResponseRisk response agentId = "high")
    ∧ (∀ response agentId : String,
      assessResponseRisk response agentId ≠ "critical")
    ∧ assessResponseRiskOnError = "medium"
    ∧ assessResponseRiskOnError ≠ "critical" := by
  refine ⟨?_, ?_, rfl, by decide⟩
  · intro response agentId
    unfold assessResponseRisk
    split_ifs <;> simp
  · intro response agentId
    unfold assessResponseRisk
    split_ifs <;> decide

/-! ### C6: confidence score bounds and monotonicity -/

/-- Clamping to [0,1] is monotone. -/
lemma clamp01_mono {a b : ℚ} (h : a ≤ b) : min (max a 0) 1 ≤ min (max b 0) 1 :=
  min_le_min (max_le_max h le_rfl) le_rfl

/-- Core arithmetic step behind C6: appending one source of non-negative
weight `w` to `n` sources of total weight `S ≤ n` cannot decrease the raw
(unclamped) confidence blend, because the coverage term gains exactly 0.1
while the mean-reliability term loses at most `0.2 · (1/2)`. -/
lemma confidenceBlendStep (s S w : ℚ) (n : ℕ) (hS0 : 0 ≤ S) (hSn : S ≤ (n : ℚ))
    (hw0 : 0 ≤ w) :
    s * 0.5 + ((n : ℚ) / 3) * 0.3 + (S / max (n : ℚ) 1) * 0.2 ≤
    s * 0.5 + (((n : ℚ) + 1) / 3) * 0.3 + ((S + w) / ((n : ℚ) + 1)) * 0.2 := by
  rcases Nat.eq_zero_or_pos n with rfl | hn
  · have hS : S = 0 := le_antisymm (by exact_mod_cast hSn) hS0
    subst hS
    norm_num
    linarith
  · have hn1 : (1 : ℚ) ≤ (n : ℚ) := by exact_mod_cast hn
    have hmax : max (n : ℚ) 1 = (n : ℚ) := max_eq_left hn1
    rw [hmax]
    have hnpos : (0 : ℚ) < (n : ℚ) := by linarith
    have hn1pos : (0 : ℚ) < (n : ℚ) + 1 := by linarith
    have e1 : S / (n : ℚ) - S / ((n : ℚ) + 1) = S / ((n : ℚ) * ((n : ℚ) + 1)) := by
      field_simp
      ring
    have e2 : S / ((n : ℚ) * ((n : ℚ) + 1)) ≤ (n : ℚ) / ((n : ℚ) * ((n : ℚ) + 1)) :=
      (div_le_div_iff_of_pos_right (by positivity)).mpr hSn
    have e3 : (n : ℚ) / ((n : ℚ) * ((n : ℚ) + 1)) = 1 / ((n : ℚ) + 1) := by
      field_simp
    have e4 : 1 / ((n : ℚ) + 1) ≤ 1 / 2 :=
      one_div_le_one_div_of_le (by norm_num) (by linarith)
    have e5 : S / ((n : ℚ) + 1) ≤ (S + w) / ((n : ℚ) + 1) :=
      (div_le_div_iff_of_pos_right hn1pos).mpr (by linarith)
    have key : S / (n : ℚ) - (S + w) / ((n : ℚ) + 1) ≤ 1 / 2 := by linarith
    linarith

/-- **C6.** The confidence score always lies in [0,1] (for any validation
score and any weight list, including the empty one), is monotone
non-decreasing in the validation score, and is monotone non-decreasing in
the source count: appending one source whose a-priori weight lies in [0,1]
(the existing weights also lying in [0,1], as the code's fixed
0.9/0.85/0.75/0.5 weights do) never decreases the score. -/
theorem C6_confidence_bounds_monotone :
    (∀ (s : ℚ) (ws : List ℚ),
      0 ≤ calculateConfidenceScore s ws ∧ calculateConfidenceScore s ws ≤ 1)
    ∧ (∀ (s t : ℚ) (ws : List ℚ), s ≤ t →
      calculateConfidenceScore s ws ≤ calculateConfidenceScore t ws)
    ∧ (∀ (s w : ℚ) (ws : List ℚ), (∀ x ∈ ws, 0 ≤ x ∧ x ≤ 1) → 0 ≤ w → w ≤ 1 →
      calculateConfidenceScore s ws ≤ calculateConfidenceScore s (ws ++ [w])) := by
  refine ⟨?_, ?_, ?_⟩
  · intro s ws
    unfold calculateConfidenceScore
    exact ⟨le_min (le_max_right _ 0) zero_le_one, min_le_right _ 1⟩
  · intro s t ws h
    unfold calculateConfidenceScore
    apply clamp01_mono
    gcongr
  · intro s w ws hws hw0 hw1
    unfold calculateConfidenceScore
    apply clamp01_mono
    have hS0 : 0 ≤ ws.sum := List.sum_nonneg fun x hx => (hws x hx).1
    have hSn : ws.sum ≤ (ws.length : ℚ) := by
      have := List.sum_le_card_nsmul ws 1 fun x hx => (hws x hx).2
      simpa using this
    have hlen : (((ws ++ [w]).length : ℕ) : ℚ) = (ws.length : ℚ) + 1 := by
      push_cast [List.length_append, List.length_singleton]
      ring
    have hsum : (ws ++ [w]).sum = ws.sum + w := by simp
    rw [hlen, hsum]
    have hmax2 : max ((ws.length : ℚ) + 1) 1 = (ws.length : ℚ) + 1 :=
      max_eq_left (le_add_of_nonneg_left (Nat.cast_nonneg _))
    rw [hmax2]
    exact confidenceBlendStep s ws.sum w ws.length hS0 hSn hw0

/-- Witness for C6 at concrete inputs. -/
theorem C6_confidence_bounds_monotone_witness :
    calculateConfidenceScore 0.5 [0.9] ≤ calculateConfidenceScore 0.7 [0.9] ∧
    calculateConfidenceScore 0.5 [0.9] ≤ calculateConfidenceScore 0.5 ([0.9] ++ [0.85]) := by
  constructor
  · exact C6_confidence_bounds_monotone.2.1 0.5 0.7 [0.9] (by norm_num)
  · exact C6_confidence_bounds_monotone.2.2 0.5 0.85 [0.9]
      (by intro x hx; simp at hx; subst hx; norm_num) (by norm_num) (by norm_num)

/-! ## Command gating (`agents/alex.py`) -/

/-- Embedding of `AlexAgent.allowed_commands` (alex.py 45-51). -/
def allowedCommands : List (String × List String) :=
  [("filesystem", ["mkdir", "ls", "dir", "tree", "find", "locate"]),
   ("system_info", ["systeminfo", "whoami", "hostname", "uptime", "uname"]),
   ("process", ["tasklist", "ps", "top", "htop"]),
   ("network", ["ping", "nslookup", "ipconfig", "ifconfig", "netstat"]),
   ("disk", ["df", "du", "diskutil", "fsutil"])]

/-- Embedding of `AlexAgent.dangerous_commands` (alex.py 53-58). -/
def dangerousCommands : List (String × List String) :=
  [("destructive", ["rm", "del", "rmdir", "rd", "format", "fdisk", "mkfs"]),
   ("system_modify", ["regedit", "reg", "systemctl", "service", "chkdsk"]),
   ("network_modify", ["iptables", "netsh", "route"]),
   ("user_modify", ["useradd", "userdel", "passwd", "net user"])]

/-- Embedding of `AlexAgent._is_dangerous_command` (alex.py 436-444):
a *substring* scan of the lowercased command over every deny category. -/
def isDangerousCommand (command : String) : Bool :=
  dangerousCommands.any fun cat => cat.2.any fun cmd => strContainsB (pyLower command) cmd

/-- Embedding of `AlexAgent._is_allowed_command` (alex.py 446-454):
a *startswith* scan of the lowercased command over every allow category. -/
def isAllowedCommand (command : String) : Bool :=
  allowedCommands.any fun cat => cat.2.any fun cmd => strStartsB (pyLower command) cmd

/-- Embedding of the gate order in `AlexAgent._handle_command_request`
(alex.py 225-246): the command proceeds iff it is not dangerous (checked
first, so a deny match always wins) and is allowed. -/
def commandGateAllows (command : String) : Bool :=
  !isDangerousCommand command && isAllowedCommand command

/-- Embedding of the `level` field of `AlexAgent._assess_command_risk`
(alex.py 456-484): a substring scan against a low-risk list, then a
medium-risk list, then a default of `"medium"`. -/
def assessCommandRiskLevel (command : String) : String :=
  if ["ls", "dir", "whoami", "hostname", "uptime"].any
      (fun c => strContainsB (pyLower command) c) then "low"
  else if ["mkdir", "ping", "find", "tasklist"].any
      (fun c => strContainsB (pyLower command) c) then "medium"
  else "medium"

/-- The deny-list verbs, flattened across the four deny categories. -/
def denyVerbs : List String :=
  ["rm", "del", "rmdir", "rd", "format", "fdisk", "mkfs",
   "regedit", "reg", "systemctl", "service", "chkdsk",
   "iptables", "netsh", "route",
   "useradd", "userdel", "passwd", "net user"]

/-- The allow-list verbs, flattened across the five allow categories. -/
def allowVerbs : List String :=
  ["mkdir", "ls", "dir", "tree", "find", "locate",
   "systeminfo", "whoami", "hostname", "uptime", "uname",
   "tasklist", "ps", "top", "htop",
   "ping", "nslookup", "ipconfig", "ifconfig", "netstat",
   "df", "du", "diskutil", "fsutil"]

/-- The per-category deny scan equals a search of the flat deny-verb list. -/
lemma isDangerousCommand_iff (command : String) :
    isDangerousCommand command = true ↔
      ∃ v ∈ denyVerbs, v.toList <:+: (pyLower command).toList := by
  simp [isDangerousCommand, dangerousCommands, denyVerbs, strContainsB]
  tauto

set_option maxHeartbeats 1000000 in
/-- The per-category allow scan equals a search of the flat allow-verb list. -/
lemma isAllowedCommand_iff (command : String) :
    isAllowedCommand command = true ↔
      ∃ v ∈ allowVerbs, v.toList <+: (pyLower command).toList := by
  simp [isAllowedCommand, allowedCommands, allowVerbs, strStartsB]
  tauto

/-! ### C2: allow/deny command gating -/

/-- **C2.** A command passes the gate iff its lowercasing starts with an
allow-list verb and contains no deny-list verb as a substring (the deny
scan runs first, so a deny match always wins); `"rm -rf /tmp"` is rejected
and `"ls -la"` is allowed with low risk.  The claim's last example fails on
the code: `"mkdir foo"` is allowed but its risk level evaluates to `"low"`,
not `"medium"`, because the substring `"dir"` of `"mkdir"` matches the
low-risk list before the medium-risk list (which itself lists `mkdir`) is
ever consulted. -/
theorem C2_command_gate :
    (∀ command : String, commandGateAllows command = true ↔
      ((∃ v ∈ allowVerbs, v.toList <+: (pyLower command).toList) ∧
       ∀ v ∈ denyVerbs, ¬(v.toList <:+: (pyLower command).toList)))
    ∧ isDangerousCommand "rm -rf /tmp" = true
    ∧ commandGateAllows "rm -rf /tmp" = false
    ∧ commandGateAllows "ls -la" = true
    ∧ assessCommandRiskLevel "ls -la" = "low"
    ∧ commandGateAllows "mkdir foo" = true
    ∧ assessCommandRiskLevel "mkdir foo" = "low"
    ∧ assessCommandRiskLevel "mkdir foo" ≠ "medium" := by
  refine ⟨?_, by decide, by decide, by decide, by decide, by decide, by decide,
    by decide⟩
  intro command
  unfold commandGateAllows
  rw [Bool.and_eq_true, Bool.not_eq_true']
  rw [Bool.eq_false_iff]
  rw [Ne, isDangerousCommand_iff, isAllowedCommand_iff]
  push_neg
  tauto

/-! ## Consensus Engine (`agents/judy.py`) -/

/-- One entry of the consensus list built by `JudyAgent._build_consensus`
(judy.py 196-254): source name, raw response text, a-priori weight. -/
structure ConsensusSource where
  name : String
  response : String
  confidence : ℚ
deriving DecidableEq

/-- Embedding of `JudyAgent._build_consensus` (judy.py 196-254).  Each of
the three generation sources either returns a completion (`some text`) or
is unavailable/fails (`none`, covering a missing API key, a missing client
and a raised exception alike, all of which just skip the append). -/
def buildConsensus (openaiResp perplexityResp localResp : Option String) :
    List ConsensusSource :=
  ((openaiResp.map fun r => ConsensusSource.mk "OpenAI GPT-4" r 0.9).toList)
    ++ ((perplexityResp.map fun r => ConsensusSource.mk "Perplexity AI" r 0.85).toList)
    ++ ((localResp.map fun r => ConsensusSource.mk "Local LLM (Llama3-70B)" r 0.75).toList)

/-- The validation-result record returned by
`JudyAgent._validate_against_consensus` (judy.py 256-315). -/
structure ValidationResult where
  validationScore : ℚ
  reasoning : String
  agreements : List String
  disagreements : List String
  hallucinationRisk : String
deriving DecidableEq

/-- Embedding of `JudyAgent._find_agreements` (judy.py 417-423). -/
def findAgreements (consensusData : List ConsensusSource) : List String :=
  if consensusData.length ≥ 2 then ["Multiple sources provide consistent information"]
  else []

/-- Embedding of `JudyAgent._find_disagreements` (judy.py 425-431). -/
def findDisagreements (consensusData : List ConsensusSource) : List String :=
  if consensusData.length < 2 then ["Limited consensus data available for comparison"]
  else []

/-- Embedding of `JudyAgent._validate_against_consensus` (judy.py 256-315).
The external LLM comparison call is abstracted to its returned analysis
text together with the regex outcome `scoreMatch` fed to
`extractValidationScore` (see there). -/
def validateAgainstConsensus (consensusData : List ConsensusSource)
    (analysis : String) (scoreMatch : Option ℚ) : ValidationResult :=
  if consensusData.isEmpty then
    ValidationResult.mk 0.5 "Unable to build consensus for validation" [] [] "unknown"
  else
    ValidationResult.mk (extractValidationScore scoreMatch) analysis
      (findAgreements consensusData) (findDisagreements consensusData)
      (assessHallucinationRisk (extractValidationScore scoreMatch))

/-! ### C7: empty consensus handling -/

/-- **C7 counterexample.** On the code, validating against the empty
consensus yields hallucination-risk bucket `"unknown"`, not `"medium"` as
the claim states. -/
theorem C7_empty_consensus_counterexample :
    (validateAgainstConsensus (buildConsensus none none none) "analysis" none).hallucinationRisk
      = "unknown" ∧
    ¬((validateAgainstConsensus (buildConsensus none none none) "analysis" none).hallucinationRisk
      = "medium") := by
  constructor
  · rfl
  · decide

/-- **C7 (amended).** `buildConsensus` with zero reachable sources returns
the empty list (without any error path), and validating any text against an
empty consensus returns validation score 0.5, reasoning text noting that no
consensus could be built, empty agreement/disagreement notes, and
hallucination-risk bucket `"unknown"`. -/
theorem C7_empty_consensus :
    ∀ (analysis : String) (scoreMatch : Option ℚ),
      buildConsensus none none none = []
      ∧ (validateAgainstConsensus [] analysis scoreMatch).validationScore = 0.5
      ∧ (validateAgainstConsensus [] analysis scoreMatch).reasoning
          = "Unable to build consensus for validation"
      ∧ (validateAgainstConsensus [] analysis scoreMatch).agreements = []
      ∧ (validateAgainstConsensus [] analysis scoreMatch).disagreements = []
      ∧ (validateAgainstConsensus [] analysis scoreMatch).hallucinationRisk = "unknown" := by
  intro analysis scoreMatch
  exact ⟨rfl, rfl, rfl, rfl, rfl, rfl⟩

/-! ### C8: validation-score extraction normalisation -/

/-- **C8 counterexample.** A matched number greater than 10 — e.g. the
analysis text "score: 20", whose first regex match captures 20 — extracts
to 20/10 = 2, which lies outside [0,1], refuting the claim's universal
[0,1] guarantee. -/
theorem C8_extract_score_counterexample :
    extractValidationScore (some 20) = 2 ∧
    ¬(extractValidationScore (some 20) ≤ 1) := by
  constructor
  · norm_num [extractValidationScore]
  · norm_num [extractValidationScore]

/-- **C8 (amended).** When no score/confidence pattern matches, the result
is exactly 0.6; a matched number at most 1 is used directly, clamped to
[0,1]; a matched number above 1 is divided by 10 — so the result lies in
[0,1] exactly when the (non-negative) matched number is at most 10, and a
match above 10 escapes the claimed range. -/
theorem C8_extract_validation_score :
    extractValidationScore none = 0.6
    ∧ (∀ q : ℚ, q ≤ 1 → extractValidationScore (some q) = min (max q 0) 1)
    ∧ (∀ q : ℚ, 1 < q → extractValidationScore (some q) = q / 10)
    ∧ (∀ q : ℚ, 0 ≤ q → q ≤ 10 →
        0 ≤ extractValidationScore (some q) ∧ extractValidationScore (some q) ≤ 1) := by
  refine ⟨rfl, ?_, ?_, ?_⟩
  · intro q h
    simp [extractValidationScore, h]
  · intro q h
    simp [extractValidationScore, not_le.mpr h]
  · intro q h0 h10
    by_cases h1 : q ≤ 1
    · simp only [extractValidationScore, if_pos h1]
      constructor
      · exact le_min (le_max_right q 0) zero_le_one
      · exact min_le_right _ 1
    · simp only [extractValidationScore, if_neg h1]
      constructor
      · positivity
      · linarith
 
/-- Witness for C8 at concrete inputs. -/
theorem C8_extract_validation_score_witness :
    extractValidationScore (some 0.82) = min (max (0.82 : ℚ) 0) 1 ∧
    extractValidationScore (some 7) = 7 / 10 := by
  constructor
  · exact C8_extract_validation_score.2.1 0.82 (by norm_num)
  · exact C8_extract_validation_score.2.2.1 7 (by norm_num)

/-! ## Approval Lifecycle Manager (`api/routes/approvals.py`) -/

/-- The four approval states (`models.database.ApprovalStatus`). -/
inductive ApprovalStatus
  | pending
  | approved
  | rejected
  | expired
deriving DecidableEq

/-- The fields of an `Approval` row that the decide/sweep endpoints touch. -/
structure Approval where
  id : Nat
  userId : Nat
  status : ApprovalStatus
  createdAt : Int
  expiresAt : Option Int
  respondedAt : Option Int
  responseReason : Option String
deriving DecidableEq

/-- The three caller-visible decision errors of `respond_to_approval`
(HTTP 404 "not found", 400 "cannot modify", 400 "has expired"). -/
inductive DecideError
  | notFound
  | invalidState
  | expired
deriving DecidableEq

/-- The row lookup of `respond_to_approval` (approvals.py 500-505):
select by approval id and owning user. -/
def findApproval (store : List Approval) (approvalId userId : Nat) : Option Approval :=
  store.find? fun a => a.id == approvalId && a.userId == userId

/-- The expiry test of `respond_to_approval` (approvals.py 520):
`approval.expires_at and approval.expires_at < datetime.utcnow()`. -/
def isPastExpiry (a : Approval) (now : Int) : Bool :=
  match a.expiresAt with
  | some e => decide (e < now)
  | none => false

/-- The field updates of `respond_to_approval` (approvals.py 527-529). -/
def decidedApproval (a : Approval) (approved : Bool) (reason : Option String)
    (now : Int) : Approval :=
  { a with
    status := if approved then ApprovalStatus.approved else ApprovalStatus.rejected,
    respondedAt := some now,
    responseReason := reason }

/-- Embedding of `respond_to_approval` (approvals.py 488-561): lookup,
status check, expiry check, then commit of the decided row.  The returned
pair is (caller-visible result, post-call store); on every error path the
session is left uncommitted, so the store is returned unchanged. -/
def respondToApproval (store : List Approval) (approvalId userId : Nat)
    (approved : Bool) (reason : Option String) (now : Int) :
    Except DecideError Approval × List Approval :=
  match findApproval store approvalId userId with
  | none => (Except.error DecideError.notFound, store)
  | some a =>
    if a.status ≠ ApprovalStatus.pending then
      (Except.error DecideError.invalidState, store)
    else if isPastExpiry a now then
      (Except.error DecideError.expired, store)
    else
      let decided := decidedApproval a approved reason now
      (Except.ok decided,
       store.map fun b => if b.id == approvalId && b.userId == userId then decided else b)

/-- `isPastExpiry` holds exactly when an expiry time is set and lies
strictly before `now`. -/
lemma isPastExpiry_iff (a : Approval) (now : Int) :
    isPastExpiry a now = true ↔ ∃ e, a.expiresAt = some e ∧ e < now := by
  unfold isPastExpiry
  cases h : a.expiresAt <;> simp

/-- The condition of the sweep's bulk update (approvals.py 457-460):
owned by the user, still pending, created before the cutoff. -/
def shouldExpireRow (userId : Nat) (cutoff : Int) (a : Approval) : Bool :=
  a.userId == userId && a.status == ApprovalStatus.pending
    && decide (a.createdAt < cutoff)

/-- The values written by the sweep's bulk update (approvals.py 461-465). -/
def expireRow (now : Int) (a : Approval) : Approval :=
  { a with status := ApprovalStatus.expired,
           respondedAt := some now,
           responseReason := some "Auto-expired due to timeout" }

/-- Embedding of `expire_old_approvals` (approvals.py 442-477): the bulk
`UPDATE ... WHERE user_id = u AND status = pending AND created_at < cutoff`
with `cutoff = now - hours`, returning the updated store and the row count. -/
def expireOldApprovals (store : List Approval) (userId : Nat) (hours : Nat)
    (now : Int) : List Approval × Nat :=
  let cutoff : Int := now - (hours : Int) * 3600
  (store.map fun a => if shouldExpireRow userId cutoff a then expireRow now a else a,
   (store.filter (shouldExpireRow userId cutoff)).length)

/-- `shouldExpireRow` unfolded to its propositional form. -/
lemma shouldExpireRow_iff (userId : Nat) (cutoff : Int) (a : Approval) :
    shouldExpireRow userId cutoff a = true ↔
      a.userId = userId ∧ a.status = ApprovalStatus.pending ∧ a.createdAt < cutoff := by
  simp [shouldExpireRow, and_assoc]

/-- Row `i` of the swept store is the conditional rewrite of row `i` of the
input store. -/
lemma expireOld_get (store : List Approval) (userId : Nat) (hours : Nat)
    (now : Int) (i : Nat) (h : i < store.length)
    (h2 : i < (expireOldApprovals store userId hours now).1.length) :
    (expireOldApprovals store userId hours now).1.get ⟨i, h2⟩
      = (if shouldExpireRow userId (now - (hours : Int) * 3600) (store.get ⟨i, h⟩)
         then expireRow now (store.get ⟨i, h⟩) else store.get ⟨i, h⟩) := by
  simp [expireOldApprovals, List.get_eq_getElem, List.getElem_map]

/-! ### C3: the decide endpoint's error and success semantics -/

/-- **C3.** A decide call fails with `notFound` iff no approval with the
given id owned by the calling user exists; given the looked-up row, it
fails with `invalidState` iff that row is not pending; it fails with
`expired` iff the row is pending and its expiry time lies strictly before
`now`; and otherwise it succeeds with the row's status set according to the
supplied boolean, the decision time set to `now`, and the decision reason
recorded. -/
theorem C3_decide_approval :
    ∀ (store : List Approval) (approvalId userId : Nat) (approved : Bool)
      (reason : Option String) (now : Int),
      ((respondToApproval store approvalId userId approved reason now).1
          = Except.error DecideError.notFound
        ↔ findApproval store approvalId userId = none)
      ∧ (∀ a, findApproval store approvalId userId = some a →
          ((respondToApproval store approvalId userId approved reason now).1
              = Except.error DecideError.invalidState
            ↔ a.status ≠ ApprovalStatus.pending))
      ∧ (∀ a, findApproval store approvalId userId = some a →
          ((respondToApproval store approvalId userId approved reason now).1
              = Except.error DecideError.expired
            ↔ a.status = ApprovalStatus.pending ∧ ∃ e, a.expiresAt = some e ∧ e < now))
      ∧ (∀ a, findApproval store approvalId userId = some a →
          a.status = ApprovalStatus.pending →
          ¬(∃ e, a.expiresAt = some e ∧ e < now) →
          (respondToApproval store approvalId userId approved reason now).1
              = Except.ok (decidedApproval a approved reason now)
          ∧ (decidedApproval a approved reason now).status
              = (if approved then ApprovalStatus.approved else ApprovalStatus.rejected)
          ∧ (decidedApproval a approved reason now).respondedAt = some now
          ∧ (decidedApproval a approved reason now).responseReason = reason) := by
  intro store approvalId userId approved reason now
  refine ⟨?_, ?_, ?_, ?_⟩
  · cases hfind : findApproval store approvalId userId with
    | none => simp [respondToApproval, hfind]
    | some a =>
      simp only [respondToApproval, hfind]
      split_ifs <;> simp
  · intro a hfind
    simp only [respondToApproval, hfind]
    split_ifs with h1 h2 <;> simp_all
  · intro a hfind
    simp only [respondToApproval, hfind]
    split_ifs with h1 h2 <;> simp_all [isPastExpiry_iff]
  · intro a hfind hpend hexp
    have hpast : isPastExpiry a now = false := by
      rw [Bool.eq_false_iff, Ne, isPastExpiry_iff]
      exact hexp
    simp only [respondToApproval, hfind, hpend, hpast]
    simp [decidedApproval]

/-- Witness for C3 on a one-row store holding a pending, never-expiring
approval: the decide call succeeds and records time and reason. -/
theorem C3_decide_approval_witness :
    (respondToApproval [Approval.mk 1 1 ApprovalStatus.pending 0 none none none]
        1 1 true (some "ok") 10).1
      = Except.ok (decidedApproval
          (Approval.mk 1 1 ApprovalStatus.pending 0 none none none) true (some "ok") 10) :=
  ((C3_decide_approval [Approval.mk 1 1 ApprovalStatus.pending 0 none none none]
      1 1 true (some "ok") 10).2.2.2
    (Approval.mk 1 1 ApprovalStatus.pending 0 none none none)
    (by decide) rfl (by simp)).1

/-! ### C4: decide on an expired pending approval -/

/-- **C4 counterexample.** On a one-row store holding a pending approval
whose expiry (5) lies before `now` (10), the decide call fails with
`expired` but leaves the store unchanged: the row keeps status `pending`
and is *not* flipped to `expired`, refuting the claimed side effect. -/
theorem C4_expired_decide_counterexample :
    (respondToApproval
        [Approval.mk 1 1 ApprovalStatus.pending 0 (some 5) none none]
        1 1 true none 10).1 = Except.error DecideError.expired
    ∧ (respondToApproval
        [Approval.mk 1 1 ApprovalStatus.pending 0 (some 5) none none]
        1 1 true none 10).2
      = [Approval.mk 1 1 ApprovalStatus.pending 0 (some 5) none none]
    ∧ ¬(∃ a ∈ (respondToApproval
        [Approval.mk 1 1 ApprovalStatus.pending 0 (some 5) none none]
        1 1 true none 10).2, a.status = ApprovalStatus.expired) := by
  refine ⟨rfl, rfl, ?_⟩
  decide

/-- **C4 (amended).** A decide call on a pending approval whose expiry time
has passed fails with `expired` and has *no* side effect: the store — and in
particular the stored approval's status — is left exactly as it was (the
source raises before any mutation; it never opportunistically flips the row
to `expired`). -/
theorem C4_expired_decide_no_flip :
    ∀ (store : List Approval) (approvalId userId : Nat) (approved : Bool)
      (reason : Option String) (now : Int) (a : Approval),
      findApproval store approvalId userId = some a →
      a.status = ApprovalStatus.pending →
      (∃ e, a.expiresAt = some e ∧ e < now) →
      respondToApproval store approvalId userId approved reason now
        = (Except.error DecideError.expired, store) := by
  intro store approvalId userId approved reason now a hfind hpend hexp
  have hpast : isPastExpiry a now = true := (isPastExpiry_iff a now).mpr hexp
  simp [respondToApproval, hfind, hpend, hpast]

/-- Witness for C4's amended statement at the concrete expired row. -/
theorem C4_expired_decide_no_flip_witness :
    respondToApproval
        [Approval.mk 1 1 ApprovalStatus.pending 0 (some 5) none none]
        1 1 true none 10
      = (Except.error DecideError.expired,
         [Approval.mk 1 1 ApprovalStatus.pending 0 (some 5) none none]) :=
  C4_expired_decide_no_flip _ 1 1 true none 10
    (Approval.mk 1 1 ApprovalStatus.pending 0 (some 5) none none)
    (by decide) rfl ⟨5, rfl, by decide⟩

/-! ### C5: the expiry sweep -/

/-- **C5.** The sweep touches exactly the calling user's pending rows
created strictly before `now - olderThanHours`: each such row is rewritten
to status `expired` with the standard reason string and decision timestamp
`now` (all identifying fields kept), every other row is returned verbatim,
the store's size is unchanged, and the returned count is the number of rows
matching the condition. -/
theorem C5_sweep_expired :
    ∀ (store : List Approval) (userId : Nat) (hours : Nat) (now : Int),
      (expireOldApprovals store userId hours now).1.length = store.length
      ∧ (∀ i (h : i < store.length) (h2 : i < (expireOldApprovals store userId hours now).1.length),
          ((store.get ⟨i, h⟩).userId = userId ∧
           (store.get ⟨i, h⟩).status = ApprovalStatus.pending ∧
           (store.get ⟨i, h⟩).createdAt < now - (hours : Int) * 3600 →
            ((expireOldApprovals store userId hours now).1.get ⟨i, h2⟩).status
                = ApprovalStatus.expired
            ∧ ((expireOldApprovals store userId hours now).1.get ⟨i, h2⟩).respondedAt
                = some now
            ∧ ((expireOldApprovals store userId hours now).1.get ⟨i, h2⟩).responseReason
                = some "Auto-expired due to timeout"
            ∧ ((expireOldApprovals store userId hours now).1.get ⟨i, h2⟩).id
                = (store.get ⟨i, h⟩).id
            ∧ ((expireOldApprovals store userId hours now).1.get ⟨i, h2⟩).userId
                = (store.get ⟨i, h⟩).userId
            ∧ ((expireOldApprovals store userId hours now).1.get ⟨i, h2⟩).createdAt
                = (store.get ⟨i, h⟩).createdAt)
          ∧ (¬((store.get ⟨i, h⟩).userId = userId ∧
               (store.get ⟨i, h⟩).status = ApprovalStatus.pending ∧
               (store.get ⟨i, h⟩).createdAt < now - (hours : Int) * 3600) →
              (expireOldApprovals store userId hours now).1.get ⟨i, h2⟩
                = store.get ⟨i, h⟩))
      ∧ (expireOldApprovals store userId hours now).2
          = (store.filter fun a =>
              decide (a.userId = userId ∧ a.status = ApprovalStatus.pending ∧
                a.createdAt < now - (hours : Int) * 3600)).length := by
  intro store userId hours now
  refine ⟨by simp [expireOldApprovals], ?_, ?_⟩
  · intro i h h2
    rw [expireOld_get store userId hours now i h h2]
    constructor
    · intro hcnd
      rw [if_pos ((shouldExpireRow_iff _ _ _).mpr hcnd)]
      simp [expireRow]
    · intro hneg
      rw [if_neg]
      intro hc
      exact hneg ((shouldExpireRow_iff _ _ _).mp hc)
  · simp only [expireOldApprovals]
    congr 1
    apply List.filter_congr
    intro a _
    rw [Bool.eq_iff_iff]
    simp only [decide_eq_true_eq]
    exact shouldExpireRow_iff userId (now - (hours : Int) * 3600) a

/-- Witness for C5 on a two-row store: the stale pending row is expired
with the standard reason, the fresh pending row is untouched. -/
theorem C5_sweep_expired_witness :
    (((expireOldApprovals
        [Approval.mk 1 1 ApprovalStatus.pending 0 none none none,
         Approval.mk 2 1 ApprovalStatus.pending 99999 none none none]
        1 24 100000).1.get ⟨0, by simp [expireOldApprovals]⟩).status
      = ApprovalStatus.expired)
    ∧ ((expireOldApprovals
        [Approval.mk 1 1 ApprovalStatus.pending 0 none none none,
         Approval.mk 2 1 ApprovalStatus.pending 99999 none none none]
        1 24 100000).1.get ⟨1, by simp [expireOldApprovals]⟩
      = Approval.mk 2 1 ApprovalStatus.pending 99999 none none none) := by
  constructor
  · exact (((C5_sweep_expired
      [Approval.mk 1 1 ApprovalStatus.pending 0 none none none,
       Approval.mk 2 1 ApprovalStatus.pending 99999 none none none]
      1 24 100000).2.1 0 (by decide) (by simp [expireOldApprovals])).1
      (by refine ⟨rfl, rfl, by decide⟩)).1
  · exact ((C5_sweep_expired
      [Approval.mk 1 1 ApprovalStatus.pending 0 none none none,
       Approval.mk 2 1 ApprovalStatus.pending 99999 none none none]
      1 24 100000).2.1 1 (by decide) (by simp [expireOldApprovals])).2
      (by intro hc; exact absurd hc.2.2 (by decide))

/-! ## Conversation Pipeline (`agents/orchestrator.py`) -/

/-- The nodes of the LangGraph conversation flow
(`AgentOrchestrator._build_graph`, orchestrator.py 130-164), plus a
terminal `done` marker for the END node. -/
inductive Stage
  | detectIntent
  | routeToAgent
  | processWithAgent
  | requestApproval
  | validateWithJudy
  | finalizeResponse
  | done
deriving DecidableEq

/-- The slice of `ConversationState` that the branch function reads:
whether the prior stage recorded `context["error"]`, the
`requires_approval` flag, and the detected intent. -/
structure BranchState where
  error : Bool
  requiresApproval : Bool
  intent : String

/-- Embedding of `AgentOrchestrator._should_request_approval`
(orchestrator.py 245-258), the conditional-edge selector run after
`process_with_agent`. -/
def shouldRequestApproval (s : BranchState) : String :=
  if s.error then "finalize"
  else if s.requiresApproval then "approval_required"
  else if s.intent ∈ ["validation_request", "consensus_building"] then "validation_required"
  else "finalize"

/-- Embedding of the edges of `_build_graph` (orchestrator.py 143-161):
fixed edges for every node, with the conditional mapping
{approval_required ↦ request_approval, validation_required ↦
validate_with_judy, finalize ↦ finalize_response} after
`process_with_agent`. -/
def nextStage (s : BranchState) : Stage → Stage
  | Stage.detectIntent => Stage.routeToAgent
  | Stage.routeToAgent => Stage.processWithAgent
  | Stage.processWithAgent =>
      if shouldRequestApproval s = "approval_required" then Stage.requestApproval
      else if shouldRequestApproval s = "validation_required" then Stage.validateWithJudy
      else Stage.finalizeResponse
  | Stage.requestApproval => Stage.validateWithJudy
  | Stage.validateWithJudy => Stage.finalizeResponse
  | Stage.finalizeResponse => Stage.done
  | Stage.done => Stage.done

/-- The traversal of the graph from a given stage (fuel-bounded; the graph
has no cycles, so any fuel ≥ 6 is exact). -/
def pathFrom (s : BranchState) : Nat → Stage → List Stage
  | 0, _ => []
  | _ + 1, Stage.done => []
  | n + 1, st => st :: pathFrom s n (nextStage s st)

/-! ### C9: branch selection and the validation-request traversal -/

/-- **C9.** The branch function selects finalize on a recorded error, else
approval when the approval flag is set, else validation exactly for the
two always-validate intents, else finalize; a run with intent
`"validation_request"`, no error and no approval flag traverses
detect-intent, route, process, validate, finalize — never request-approval
— and the request-approval node always proceeds to validate-with-judy. -/
theorem C9_pipeline_branching :
    (∀ s : BranchState, s.error = true → shouldRequestApproval s = "finalize")
    ∧ (∀ s : BranchState, s.error = false → s.requiresApproval = true →
        shouldRequestApproval s = "approval_required")
    ∧ (∀ s : BranchState, s.error = false → s.requiresApproval = false →
        s.intent ∈ ["validation_request", "consensus_building"] →
        shouldRequestApproval s = "validation_required")
    ∧ (∀ s : BranchState, s.error = false → s.requiresApproval = false →
        s.intent ∉ ["validation_request", "consensus_building"] →
        shouldRequestApproval s = "finalize")
    ∧ pathFrom (BranchState.mk false false "validation_request") 10 Stage.detectIntent
        = [Stage.detectIntent, Stage.routeToAgent, Stage.processWithAgent,
           Stage.validateWithJudy, Stage.finalizeResponse]
    ∧ Stage.requestApproval ∉
        pathFrom (BranchState.mk false false "validation_request") 10 Stage.detectIntent
    ∧ (∀ s : BranchState, nextStage s Stage.requestApproval = Stage.validateWithJudy) := by
  refine ⟨?_, ?_, ?_, ?_, ?_, ?_, fun s => rfl⟩
  · intro s herr
    simp [shouldRequestApproval, herr]
  · intro s herr happ
    simp [shouldRequestApproval, herr, happ]
  · intro s herr happ hint
    simp [shouldRequestApproval, herr, happ, hint]
  · intro s herr happ hint
    simp [shouldRequestApproval, herr, happ, hint]
  · decide
  · decide

/-- Witness for C9 at concrete branch states. -/
theorem C9_pipeline_branching_witness :
    shouldRequestApproval (BranchState.mk true false "general") = "finalize"
    ∧ shouldRequestApproval (BranchState.mk false true "general") = "approval_required"
    ∧ shouldRequestApproval (BranchState.mk false false "validation_request")
        = "validation_required"
    ∧ shouldRequestApproval (BranchState.mk false false "general") = "finalize" := by
  refine ⟨?_, ?_, ?_, ?_⟩
  · exact C9_pipeline_branching.1 _ rfl
  · exact C9_pipeline_branching.2.1 _ rfl rfl
  · exact C9_pipeline_branching.2.2.1 _ rfl rfl (by decide)
  · exact C9_pipeline_branching.2.2.2.1 _ rfl rfl (by decide)
